import Mathlib

/-!
Shallow embedding of the FortuNet MikroTik hotspot billing backend
(files `mpesa_stkpush.py`, `database.py`, `flask_api_endpoints.py`).

Python strings are embedded as `List Char` where character-level
operations matter (phone numbers) and as `String` elsewhere; machine
time is a `Nat` count of seconds supplied explicitly wherever the code
reads the clock; network I/O is modelled by passing the remote
response (or the exception raised by the HTTP library) as an explicit
argument of type `Except String _`; Python exceptions are `Except`
errors; SQLite tables are Lean lists of records.
-/

/-- Response of the M-Pesa OAuth token endpoint, as read by
`MpesaSTKPush.get_access_token`: an HTTP status plus the
`access_token` field of the JSON body. -/
structure TokenResp where
  status : Nat
  access_token : String
deriving Repr, DecidableEq

/-- Response of the STK push endpoint, as read by
`MpesaSTKPush.initiate_stk_push`: an HTTP status plus the optional
JSON fields the code extracts with `result.get(...)`. -/
structure StkResp where
  status : Nat
  checkoutRequestId : Option String := none
  merchantRequestId : Option String := none
  responseCode : Option String := none
  responseDescription : Option String := none
  customerMessage : Option String := none
deriving Repr, DecidableEq

/-- The dictionary returned by `initiate_stk_push` / `process_payment`:
a boolean `success` key, the gateway fields on success, an `error`
message on failure (absent keys are `none`). -/
structure StkResult where
  success : Bool
  checkout_request_id : Option String := none
  merchant_request_id : Option String := none
  response_code : Option String := none
  response_description : Option String := none
  customer_message : Option String := none
  error : Option String := none
deriving Repr, DecidableEq

/-- One outbound POST to the gateway STK endpoint, recording the
`PhoneNumber`/`PartyA` and `Amount` fields of `stk_push_data`. -/
structure GatewayCall where
  phoneNumber : List Char
  amount : Nat
deriving Repr, DecidableEq

/-- Embeds `MpesaSTKPush.get_access_token` (mpesa_stkpush.py lines 22-35):
returns the token when the HTTP call returns status 200, otherwise
raises; any exception is re-raised prefixed with `Access token
error: `. The argument is the HTTP layer outcome (`.error` when
`requests.get` itself raised). -/
def get_access_token (net : Except String TokenResp) : Except String String :=
  match net with
  | .error e => .error ("Access token error: " ++ e)
  | .ok r =>
    if r.status = 200 then
      .ok r.access_token
    else
      .error ("Access token error: " ++ ("Failed to get access token: " ++ toString r.status))

/-- Embeds `MpesaSTKPush.initiate_stk_push` (mpesa_stkpush.py lines 43-85):
fetches an access token, POSTs the STK push request, and returns a
success dictionary on HTTP 200 or a `{success: False, error: ...}`
dictionary on any exception. Also returns the list of STK POSTs
performed (empty when the token fetch failed so the POST line was
never reached). -/
def initiate_stk_push (tokenNet : Except String TokenResp) (stkNet : Except String StkResp)
    (phone_number : List Char) (amount : Nat) (_package_name _account_reference _callback_url : String) :
    StkResult × List GatewayCall :=
  match get_access_token tokenNet with
  | .error e => ({ success := false, error := some e }, [])
  | .ok _access_token =>
    let call : GatewayCall := { phoneNumber := phone_number, amount := amount }
    match stkNet with
    | .error e => ({ success := false, error := some e }, [call])
    | .ok r =>
      if r.status = 200 then
        ({ success := true,
           checkout_request_id := r.checkoutRequestId,
           merchant_request_id := r.merchantRequestId,
           response_code := r.responseCode,
           response_description := r.responseDescription,
           customer_message := r.customerMessage }, [call])
      else
        ({ success := false, error := some ("STK push failed: " ++ toString r.status) }, [call])

/-- The inline phone formatting step of `process_payment`
(mpesa_stkpush.py lines 106-110): a leading `0` is replaced by `254`,
a leading `+` is stripped, and anything else is left unchanged. -/
def format_phone_number (p : List Char) : List Char :=
  if p.head? = some '0' then
    ['2', '5', '4'] ++ p.tail
  else if p.head? = some '+' then
    p.tail
  else
    p

/-- Embeds `process_payment` (mpesa_stkpush.py lines 103-127): formats the
phone number, builds the account reference from the user id and the
current timestamp string, and delegates to `initiate_stk_push`. -/
def process_payment (tokenNet : Except String TokenResp) (stkNet : Except String StkResp)
    (phone_number : List Char) (amount : Nat) (package_name : String) (user_id : String)
    (nowStr : String) : StkResult × List GatewayCall :=
  let phone := format_phone_number phone_number
  let account_reference := "FortuNet-" ++ user_id ++ "-" ++ nowStr
  let callback_url := "https://your-domain.com/api/mpesa-callback"
  initiate_stk_push tokenNet stkNet phone amount package_name account_reference callback_url

/-- A row of the `users` table (database.py lines 23-38): the schema
gives `current_package_id` and `package_expires_at` no default, so a
plain INSERT leaves them NULL. -/
structure User where
  id : Nat
  username : Option String := none
  password : Option String := none
  phone_number : String
  email : Option String := none
  mac_address : Option String := none
  is_active : Bool := true
  current_package_id : Option Nat := none
  package_expires_at : Option Nat := none
deriving Repr, DecidableEq

/-- A row of the `packages` table (database.py lines 48-61). -/
structure Package where
  id : Nat
  name : String
  description : Option String := none
  price : Nat
  duration_hours : Nat
  data_limit_gb : Option Nat := none
  speed_limit_mbps : Option Nat := none
  package_type : String
  is_active : Bool := true
deriving Repr, DecidableEq

/-- A row of the `transactions` table (database.py lines 64-79):
`status` defaults to `pending`, `completed_at` to NULL (the
`created_at` column, defaulted by SQLite and never read back by the
workflow, is not modelled). -/
structure Transaction where
  id : Nat
  user_id : Nat
  package_id : Nat
  amount : Nat
  payment_method : String
  phone_number : String
  transaction_id : Option String := none
  status : String := "pending"
  completed_at : Option Nat := none
deriving Repr, DecidableEq

/-- The SQLite database: the three tables the payment workflow touches
(the `user_sessions` table is not read or written by it). -/
structure DB where
  users : List User := []
  packages : List Package := []
  transactions : List Transaction := []
deriving Repr, DecidableEq

/-- Embeds `Database.get_package_by_id` (database.py lines 321-336):
`SELECT ... FROM packages WHERE id = ? AND is_active = 1`. -/
def get_package_by_id (db : DB) (package_id : Nat) : Option Package :=
  db.packages.find? (fun p => p.id = package_id && p.is_active)

/-- Embeds `Database.get_user_by_id` (database.py lines 270-285). -/
def get_user_by_id (db : DB) (user_id : Nat) : Option User :=
  db.users.find? (fun u => u.id = user_id)

/-- Lookup of a transaction row by primary key (the `WHERE id = ?`
clause of `update_transaction_status` and `get_transaction_by_id`). -/
def get_transaction_by_id (db : DB) (tid : Nat) : Option Transaction :=
  db.transactions.find? (fun t => t.id = tid)

/-- Embeds `Database.create_mac_user` (database.py lines 149-173): INSERT a
user carrying only (mac_address, phone_number, email); the UNIQUE
constraint on `mac_address` raises IntegrityError, re-raised as
`ValueError` when the address already exists. Returns the updated
table and the new row. -/
def create_mac_user (db : DB) (mac_address : String) (phone_number : String)
    (email : Option String) : Except String (DB × User) :=
  if db.users.any (fun u => u.mac_address = some mac_address) then
    .error "MAC address already exists"
  else
    let u : User := { id := db.users.length + 1, mac_address := some mac_address,
                      phone_number := phone_number, email := email }
    .ok ({ db with users := db.users ++ [u] }, u)

/-- Embeds `Database.create_user` (database.py lines 224-251): INSERT a user
carrying (username, hashed password, phone_number, email); the UNIQUE
constraint on `username` raises, re-raised as `ValueError`. The SHA-256
digest step is abstracted as the function argument `hash`. -/
def create_user (db : DB) (hash : String → String) (username : String) (password : String)
    (phone_number : String) (email : Option String) : Except String (DB × User) :=
  if db.users.any (fun u => u.username = some username) then
    .error "Username already exists"
  else
    let u : User := { id := db.users.length + 1, username := some username,
                      password := some (hash password),
                      phone_number := phone_number, email := email }
    .ok ({ db with users := db.users ++ [u] }, u)

/-- Embeds `Database.create_transaction` (database.py lines 338-362): INSERT
a transaction; `status` takes its column default `pending` and
`completed_at` stays NULL. Returns the updated table and the new
row id. -/
def create_transaction (db : DB) (user_id package_id : Nat) (amount : Nat)
    (payment_method : String) (phone_number : String) (transaction_id : Option String) :
    DB × Nat :=
  let tid := db.transactions.length + 1
  let t : Transaction := { id := tid, user_id := user_id, package_id := package_id,
                           amount := amount, payment_method := payment_method,
                           phone_number := phone_number, transaction_id := transaction_id }
  ({ db with transactions := db.transactions ++ [t] }, tid)

/-- Embeds `Database.update_transaction_status` (database.py lines 364-378):
`UPDATE transactions SET status = ?, completed_at = ? WHERE id = ?`,
where `completed_at` is the current time when the new status is
`completed` and NULL otherwise. The given status overwrites whatever
was stored, unconditionally. -/
def update_transaction_status (db : DB) (tid : Nat) (status : String) (now : Nat) : DB :=
  let completed_at := if status = "completed" then some now else none
  { db with transactions := db.transactions.map (fun t =>
      if t.id = tid then { t with status := status, completed_at := completed_at } else t) }

/-- Embeds `Database.assign_package_to_user` (database.py lines 380-400):
looks the package up (active rows only), raises `ValueError` when
absent, else `UPDATE users SET current_package_id = ?,
package_expires_at = ? WHERE id = ?` with expiry = now +
duration_hours (seconds granularity: 3600 s per hour). -/
def assign_package_to_user (db : DB) (user_id package_id : Nat) (now : Nat) :
    Except String DB :=
  match get_package_by_id db package_id with
  | none => .error "Package not found"
  | some package =>
    let expires_at := now + 3600 * package.duration_hours
    .ok { db with users := db.users.map (fun u =>
        if u.id = user_id then
          { u with current_package_id := some package_id, package_expires_at := some expires_at }
        else u) }

/-- The JSON bodies this API sends back, as built by the endpoints of
flask_api_endpoints.py. -/
inductive RespBody where
  /-- Embeds `{'status': 'success'}` — the callback acknowledgement. -/
  | statusSuccess : RespBody
  /-- Embeds `{'error': msg}`. -/
  | errorMsg (msg : String) : RespBody
  /-- The success body of `/api/initiate-payment`: checkoutRequestID,
  customerMessage, and the fixed success message. -/
  | paymentOk (checkoutRequestID : Option String) (customerMessage : Option String) : RespBody
deriving Repr, DecidableEq

/-- An HTTP response: status code plus JSON body (Flask's `jsonify`
with no explicit code sends 200). -/
structure HttpResponse where
  status : Nat
  body : RespBody
deriving Repr, DecidableEq

/-- The fields of the M-Pesa callback JSON that `mpesa_callback` reads
with `data.get(...)`; a key the gateway omitted is `none`. -/
structure CallbackData where
  ResultCode : Option Int := none
  CheckoutRequestID : Option String := none
deriving Repr, DecidableEq

/-- A call to the access-provisioning routine, recording its
`(user_id, package_id)` arguments. -/
structure ProvisionCall where
  user_id : Nat
  package_id : Nat
deriving Repr, DecidableEq

/-- Embeds `mpesa_callback` (flask_api_endpoints.py lines 401-429): reads
`ResultCode` and `CheckoutRequestID` from the body, then both the
success branch and the failure branch are `pass` (their database
updates and the provisioning call are commented out), and the handler
answers `{'status': 'success'}`. When obtaining or reading the JSON
body raises (`body = .error`), the `except` clause answers
`{'error': str(e)}` with HTTP 500. Returns (response, database after
the call, provisioning calls made). -/
def mpesa_callback (db : DB) (body : Except String CallbackData) :
    HttpResponse × DB × List ProvisionCall :=
  match body with
  | .error e => ({ status := 500, body := .errorMsg e }, db, [])
  | .ok data =>
    let result_code := data.ResultCode
    let _checkout_request_id := data.CheckoutRequestID
    if result_code = some 0 then
      ({ status := 200, body := .statusSuccess }, db, [])
    else
      ({ status := 200, body := .statusSuccess }, db, [])

/-- The request body of `/api/initiate-payment`: the JSON keys the
endpoint reads; a key absent from the posted JSON is `none`. -/
structure InitiateReq where
  phoneNumber : Option (List Char) := none
  packageId : Option Nat := none
  amount : Option Nat := none
  packageName : Option String := none
  username : Option String := none
deriving Repr, DecidableEq

/-- Embeds `initiate_payment` (flask_api_endpoints.py lines 365-399): checks
the four required fields in order, answering 400 `Missing required
field: <f>` at the first absent one; otherwise calls `process_payment`
with the caller-supplied amount (the `db.create_transaction` call is
commented out, so the database is never touched) and answers 200 with
the checkout id on success, 400 with the error on failure. Returns
(response, database after the call, gateway calls made). -/
def initiate_payment (db : DB) (tokenNet : Except String TokenResp)
    (stkNet : Except String StkResp) (req : InitiateReq) (nowStr : String) :
    HttpResponse × DB × List GatewayCall :=
  match req.phoneNumber with
  | none => ({ status := 400, body := .errorMsg "Missing required field: phoneNumber" }, db, [])
  | some phoneNumber =>
  match req.packageId with
  | none => ({ status := 400, body := .errorMsg "Missing required field: packageId" }, db, [])
  | some _packageId =>
  match req.amount with
  | none => ({ status := 400, body := .errorMsg "Missing required field: amount" }, db, [])
  | some amount =>
  match req.packageName with
  | none => ({ status := 400, body := .errorMsg "Missing required field: packageName" }, db, [])
  | some packageName =>
    let user_id := req.username.getD "guest"
    let (result, calls) :=
      process_payment tokenNet stkNet phoneNumber amount packageName user_id nowStr
    if result.success then
      ({ status := 200, body := .paymentOk result.checkout_request_id result.customer_message },
       db, calls)
    else
      ({ status := 400, body := .errorMsg (result.error.getD "Payment initiation failed") },
       db, calls)

/-- Outcome of the RouterOS hotspot-user update performed inside
`activate_user_package` (connection + `/ip/hotspot/user` update):
`.fail msg` stands for any exception raised by the router client. -/
inductive RouterResult where
  | ok : RouterResult
  | fail (msg : String) : RouterResult
deriving Repr, DecidableEq

/-- Embeds `activate_user_package` (flask_api_endpoints.py lines 469-502):
loads package and user (raising `Package or user not found` when
either is absent), performs the MikroTik update, and only then calls
`db.assign_package_to_user`; every exception is re-raised prefixed
with `Failed to activate package: `. Returns (outcome, database after
the call). -/
def activate_user_package (db : DB) (router : RouterResult) (user_id package_id : Nat)
    (now : Nat) : Except String Unit × DB :=
  match get_package_by_id db package_id, get_user_by_id db user_id with
  | some _package, some _user =>
    match router with
    | .fail e => (.error ("Failed to activate package: " ++ e), db)
    | .ok =>
      match assign_package_to_user db user_id package_id now with
      | .ok db2 => (.ok (), db2)
      | .error e => (.error ("Failed to activate package: " ++ e), db)
  | _, _ => (.error "Failed to activate package: Package or user not found", db)

/-- Predicate on the user table stated by the spec: `current_package_id`
is non-null exactly when `package_expires_at` is non-null. -/
def users_invariant (db : DB) : Prop :=
  ∀ u ∈ db.users, u.current_package_id.isSome = u.package_expires_at.isSome

/-- Concrete package fixture: id 2, priced 500, 720 hours (the `2 Mbps`
default package of database.py line 131). -/
def samplePackage : Package :=
  { id := 2, name := "2 Mbps", description := some "2 Mbps unlimited for 30 days",
    price := 500, duration_hours := 720, speed_limit_mbps := some 2,
    package_type := "monthly" }

/-- Concrete user fixture. -/
def sampleUser : User :=
  { id := 1, username := some "alice", phone_number := "0712345678" }

/-- Concrete pending transaction fixture whose gateway correlation id
is `ws_CO_1`. -/
def sampleTx : Transaction :=
  { id := 1, user_id := 1, package_id := 2, amount := 500, payment_method := "mpesa",
    phone_number := "0712345678", transaction_id := some "ws_CO_1" }

/-- Concrete database fixture: one user, one active package, one
pending transaction. -/
def sampleDb : DB :=
  { users := [sampleUser], packages := [samplePackage], transactions := [sampleTx] }

/-- Concrete empty database fixture. -/
def emptyDb : DB := {}

/-- Concrete token-endpoint success fixture. -/
def tokOk : Except String TokenResp := .ok { status := 200, access_token := "token" }

/-- Concrete STK-endpoint success fixture carrying correlation id
`ws_CO_1`. -/
def stkOk : Except String StkResp :=
  .ok { status := 200, checkoutRequestId := some "ws_CO_1", customerMessage := some "ok" }

/-- Concrete user row produced by `create_mac_user` on `sampleDb`. -/
def macUserNew : User :=
  { id := 2, phone_number := "0722000000", mac_address := some "aa:bb:cc" }

/-- Concrete database after `create_mac_user` on `sampleDb`. -/
def dbAfterMac : DB := { sampleDb with users := sampleDb.users ++ [macUserNew] }

/-- Concrete user row produced by `create_user` on `sampleDb` (with the
identity function standing for the SHA-256 digest). -/
def pwUserNew : User :=
  { id := 2, username := some "bob", password := some "pw", phone_number := "0733000000" }

/-- Concrete database after `create_user` on `sampleDb`. -/
def dbAfterPw : DB := { sampleDb with users := sampleDb.users ++ [pwUserNew] }

/-- Concrete database after `assign_package_to_user sampleDb 1 2 1000`. -/
def dbAfterAssign : DB :=
  { sampleDb with users := [{ sampleUser with
                               current_package_id := some 2,
                               package_expires_at := some (1000 + 3600 * 720) }] }

theorem find?_map_of_pred_invariant {α : Type} (p : α → Bool) (f : α → α)
    (hf : ∀ a, p (f a) = p a) (l : List α) :
    (l.map f).find? p = (l.find? p).map f := by
  induction l with
  | nil => rfl
  | cons a l ih =>
    rw [List.map_cons]
    by_cases h : p a = true
    · rw [List.find?_cons_of_pos _ (by rw [hf]; exact h), List.find?_cons_of_pos _ h]
      rfl
    · rw [List.find?_cons_of_neg _ (by rw [hf]; simpa using h),
        List.find?_cons_of_neg _ (by simpa using h), ih]

/-- C5: when the router call inside `activate_user_package` fails, the
users table (in particular `current_package_id` / `package_expires_at`
of every account) is returned exactly as it was before the call: the
database write happens only after the router reports success. -/
theorem C5_router_failure_leaves_account_store (db : DB) (e : String)
    (uid pid now : Nat) :
    (activate_user_package db (.fail e) uid pid now).2 = db := by
  unfold activate_user_package
  split
  · rfl
  · rfl

/-- C6: a successful activation for an existing active package and an
existing user sets that user's `package_expires_at` to the activation
time plus `duration_hours` hours (3600 seconds each) and its
`current_package_id` to the package id. -/
theorem C6_activate_sets_expiry (db : DB) (uid pid now : Nat) (p : Package) (u : User)
    (hp : get_package_by_id db pid = some p) (hu : get_user_by_id db uid = some u) :
    (activate_user_package db .ok uid pid now).1 = .ok ()
    ∧ get_user_by_id (activate_user_package db .ok uid pid now).2 uid
        = some { u with
                  current_package_id := some pid,
                  package_expires_at := some (now + 3600 * p.duration_hours) } := by
  have hid : u.id = uid := by
    have := List.find?_some hu
    simpa using this
  have hassign : assign_package_to_user db uid pid now
      = .ok { db with users := db.users.map (fun w =>
          if w.id = uid then
            { w with
              current_package_id := some pid,
              package_expires_at := some (now + 3600 * p.duration_hours) }
          else w) } := by
    unfold assign_package_to_user
    rw [hp]
  unfold activate_user_package
  rw [hp, hu, hassign]
  refine ⟨rfl, ?_⟩
  unfold get_user_by_id at hu ⊢
  rw [find?_map_of_pred_invariant _ _ (fun w => by by_cases hw : w.id = uid <;> simp [hw]),
    hu]
  simp [hid]

/-- Concrete instance discharging the hypotheses of
`C6_activate_sets_expiry` on `sampleDb`. -/
theorem C6_activate_sets_expiry_witness :
    (activate_user_package sampleDb .ok 1 2 1000).1 = .ok ()
    ∧ get_user_by_id (activate_user_package sampleDb .ok 1 2 1000).2 1
        = some { sampleUser with
                  current_package_id := some 2,
                  package_expires_at := some (1000 + 3600 * samplePackage.duration_hours) } :=
  C6_activate_sets_expiry sampleDb 1 2 1000 samplePackage sampleUser (by decide) (by decide)

/-- C7 (amended): for every callback request whose JSON body is read
successfully, `mpesa_callback` answers the success acknowledgement and
changes nothing, whatever the payload holds. -/
theorem C7_wellformed_callback_acknowledged (db : DB) (data : CallbackData) :
    mpesa_callback db (.ok data) = ({ status := 200, body := .statusSuccess }, db, []) := by
  simp [mpesa_callback]

/-- C7 counterexample: a request whose body cannot be read (malformed
JSON) makes the `except` clause answer HTTP 500 with an error body —
an internal failure surfaced to the gateway as a non-success
response, contradicting the claim as stated. -/
theorem C7_malformed_callback_not_acknowledged :
    mpesa_callback emptyDb (.error "400 Bad Request") =
      ({ status := 500, body := .errorMsg "400 Bad Request" }, emptyDb, [])
    ∧ (mpesa_callback emptyDb (.error "400 Bad Request")).1.body ≠ .statusSuccess
    ∧ (mpesa_callback emptyDb (.error "400 Bad Request")).1.status ≠ 200 := by
  refine ⟨rfl, ?_, ?_⟩ <;> decide

/-- C4 (amended): `update_transaction_status` overwrites the stored
status with its argument unconditionally, and sets `completed_at` to
the current time exactly when the new status is `completed` (clearing
it otherwise); no monotonicity is enforced. -/
theorem C4_update_status_overwrites (db : DB) (tid : Nat) (status : String) (now : Nat)
    (t0 : Transaction) (h : get_transaction_by_id db tid = some t0) :
    get_transaction_by_id (update_transaction_status db tid status now) tid
      = some { t0 with
                status := status,
                completed_at := if status = "completed" then some now else none } := by
  have hid : t0.id = tid := by
    have := List.find?_some h
    simpa using this
  unfold get_transaction_by_id at h ⊢
  unfold update_transaction_status
  rw [find?_map_of_pred_invariant _ _ (fun t => by by_cases ht : t.id = tid <;> simp [ht]), h]
  simp [hid]

/-- Concrete instance discharging the hypothesis of
`C4_update_status_overwrites` on `sampleDb`. -/
theorem C4_update_status_overwrites_witness :
    get_transaction_by_id (update_transaction_status sampleDb 1 "failed" 6) 1
      = some { sampleTx with
                status := "failed",
                completed_at := if "failed" = "completed" then some 6 else none } :=
  C4_update_status_overwrites sampleDb 1 "failed" 6 sampleTx (by decide)

/-- C4 counterexample: a transaction set to `completed` is later set to
`failed` by a further `update_transaction_status` call — the status
changes again after reaching `completed`, so it is not monotonic. -/
theorem C4_completed_status_changes_again :
    (get_transaction_by_id (update_transaction_status sampleDb 1 "completed" 5) 1).map
        Transaction.status = some "completed"
    ∧ (get_transaction_by_id
        (update_transaction_status (update_transaction_status sampleDb 1 "completed" 5)
          1 "failed" 6) 1).map Transaction.status = some "failed"
    ∧ "failed" ≠ "completed" := by
  refine ⟨?_, ?_, ?_⟩ <;> decide

/-- C9: the account-store invariant — `current_package_id` non-null iff
`package_expires_at` non-null — holds for every row created by
`create_mac_user` and `create_user` (both columns NULL) and is
preserved by `assign_package_to_user` (both columns set together). -/
theorem C9_account_invariant_preserved (db : DB) (h : users_invariant db) :
    (∀ mac phone email db2 u, create_mac_user db mac phone email = .ok (db2, u) →
        users_invariant db2 ∧ u.current_package_id = none ∧ u.package_expires_at = none)
    ∧ (∀ hashf un pw phone email db2 u,
        create_user db hashf un pw phone email = .ok (db2, u) →
        users_invariant db2 ∧ u.current_package_id = none ∧ u.package_expires_at = none)
    ∧ (∀ uid pid now db2, assign_package_to_user db uid pid now = .ok db2 →
        users_invariant db2) := by
  refine ⟨?_, ?_, ?_⟩
  · intro mac phone email db2 u heq
    unfold create_mac_user at heq
    split at heq
    · simp at heq
    · simp only [Except.ok.injEq, Prod.mk.injEq] at heq
      obtain ⟨rfl, rfl⟩ := heq
      refine ⟨?_, rfl, rfl⟩
      intro w hw
      simp only [List.mem_append, List.mem_singleton] at hw
      rcases hw with hw | rfl
      · exact h w hw
      · rfl
  · intro hashf un pw phone email db2 u heq
    unfold create_user at heq
    split at heq
    · simp at heq
    · simp only [Except.ok.injEq, Prod.mk.injEq] at heq
      obtain ⟨rfl, rfl⟩ := heq
      refine ⟨?_, rfl, rfl⟩
      intro w hw
      simp only [List.mem_append, List.mem_singleton] at hw
      rcases hw with hw | rfl
      · exact h w hw
      · rfl
  · intro uid pid now db2 heq
    unfold assign_package_to_user at heq
    split at heq
    · simp at heq
    · simp only [Except.ok.injEq] at heq
      subst heq
      intro w hw
      simp only [List.mem_map] at hw
      obtain ⟨w0, hw0, rfl⟩ := hw
      by_cases hid : w0.id = uid
      · simp [hid]
      · simp only [hid, if_false]
        exact h w0 hw0

/-- Concrete instances discharging the hypotheses of
`C9_account_invariant_preserved` on `sampleDb`. -/
theorem C9_account_invariant_preserved_witness :
    (users_invariant dbAfterMac
      ∧ macUserNew.current_package_id = none ∧ macUserNew.package_expires_at = none)
    ∧ (users_invariant dbAfterPw
      ∧ pwUserNew.current_package_id = none ∧ pwUserNew.package_expires_at = none)
    ∧ users_invariant dbAfterAssign :=
  have t := C9_account_invariant_preserved sampleDb (by unfold users_invariant; decide)
  ⟨t.1 "aa:bb:cc" "0722000000" none dbAfterMac macUserNew rfl,
   t.2.1 (fun s => s) "bob" "pw" "0733000000" none dbAfterPw pwUserNew rfl,
   t.2.2 1 2 1000 dbAfterAssign rfl⟩

/-- C3 (amended): a leading `0` is rewritten to `254` and a leading
`+` is merely stripped (so `+254...` becomes `254...`), the formatted
number being what `process_payment` sends to the gateway; a number
with any other prefix is NOT rejected — it is passed through to the
gateway unchanged (no `InvalidInput` path exists). -/
theorem C3_phone_formatting (rest p : List Char) (tokR : TokenResp)
    (stkNet : Except String StkResp) (amount : Nat) (pn uid ts : String)
    (htok : tokR.status = 200) :
    format_phone_number ('0' :: rest) = '2' :: '5' :: '4' :: rest
    ∧ format_phone_number ('+' :: '2' :: '5' :: '4' :: rest) = '2' :: '5' :: '4' :: rest
    ∧ (p.head? ≠ some '0' → p.head? ≠ some '+' → format_phone_number p = p)
    ∧ (process_payment (.ok tokR) stkNet p amount pn uid ts).2
        = [{ phoneNumber := format_phone_number p, amount := amount }] := by
  refine ⟨rfl, rfl, ?_, ?_⟩
  · intro h1 h2
    unfold format_phone_number
    rw [if_neg h1, if_neg h2]
  · cases stkNet with
    | error e => simp [process_payment, initiate_stk_push, get_access_token, htok]
    | ok r =>
      by_cases hr : r.status = 200 <;>
        simp [process_payment, initiate_stk_push, get_access_token, htok, hr]

/-- Concrete instance discharging the hypotheses of
`C3_phone_formatting`. -/
theorem C3_phone_formatting_witness :
    format_phone_number ['0', '7'] = ['2', '5', '4', '7']
    ∧ format_phone_number ['+', '2', '5', '4', '7'] = ['2', '5', '4', '7']
    ∧ format_phone_number ['1', '2', '3'] = ['1', '2', '3']
    ∧ (process_payment (.ok { status := 200, access_token := "token" }) stkOk
        ['1', '2', '3'] 100 "pkg" "guest" "ts").2
        = [{ phoneNumber := format_phone_number ['1', '2', '3'], amount := 100 }] :=
  have t := C3_phone_formatting ['7'] ['1', '2', '3']
    { status := 200, access_token := "token" } stkOk 100 "pkg" "guest" "ts" rfl
  ⟨t.1, t.2.1, t.2.2.1 (by decide) (by decide), t.2.2.2⟩

/-- C3 counterexample: the number `123456`, whose prefix is neither a
local leading zero nor `+254`, is not rejected: the gateway call is
made with the number passed through verbatim and the initiation
succeeds, against the claimed `InvalidInput` rejection. -/
theorem C3_other_prefix_reaches_gateway :
    (process_payment tokOk stkOk ['1', '2', '3', '4', '5', '6'] 100 "pkg" "guest" "ts").2
      = [{ phoneNumber := ['1', '2', '3', '4', '5', '6'], amount := 100 }]
    ∧ (process_payment tokOk stkOk ['1', '2', '3', '4', '5', '6'] 100 "pkg" "guest" "ts").1.success
      = true := by
  refine ⟨?_, ?_⟩ <;> decide

/-- C10: the payment entry point is total at its interface — for every
token-endpoint outcome, STK-endpoint outcome and input,
`process_payment` returns a dictionary that either has `success =
True`, no `error` key, and the gateway-issued `CheckoutRequestID` (the
correlation identifier of the 200 response), or has `success = False`
together with an error message string. (Exception totality is the
embedding itself: both try blocks funnel every raise into the returned
dictionary.) -/
theorem C10_process_payment_interface (tokenNet : Except String TokenResp)
    (stkNet : Except String StkResp) (phone : List Char) (amount : Nat) (pn uid ts : String) :
    ((process_payment tokenNet stkNet phone amount pn uid ts).1.success = true
      ∧ (process_payment tokenNet stkNet phone amount pn uid ts).1.error = none
      ∧ ∃ r, stkNet = .ok r ∧ r.status = 200
          ∧ (process_payment tokenNet stkNet phone amount pn uid ts).1.checkout_request_id
              = r.checkoutRequestId)
    ∨ ((process_payment tokenNet stkNet phone amount pn uid ts).1.success = false
      ∧ ∃ e, (process_payment tokenNet stkNet phone amount pn uid ts).1.error = some e) := by
  rcases htok : get_access_token tokenNet with e | tok
  · right
    have hval : (process_payment tokenNet stkNet phone amount pn uid ts).1
        = { success := false, error := some e } := by
      simp [process_payment, initiate_stk_push, htok]
    rw [hval]
    exact ⟨rfl, e, rfl⟩
  · cases stkNet with
    | error e =>
      right
      have hval : (process_payment tokenNet (.error e) phone amount pn uid ts).1
          = { success := false, error := some e } := by
        simp [process_payment, initiate_stk_push, htok]
      rw [hval]
      exact ⟨rfl, e, rfl⟩
    | ok r =>
      by_cases hr : r.status = 200
      · left
        have hval : (process_payment tokenNet (.ok r) phone amount pn uid ts).1
            = { success := true,
                checkout_request_id := r.checkoutRequestId,
                merchant_request_id := r.merchantRequestId,
                response_code := r.responseCode,
                response_description := r.responseDescription,
                customer_message := r.customerMessage } := by
          simp [process_payment, initiate_stk_push, htok, hr]
        rw [hval]
        exact ⟨rfl, rfl, r, rfl, hr, rfl⟩
      · right
        have hval : (process_payment tokenNet (.ok r) phone amount pn uid ts).1
            = { success := false, error := some ("STK push failed: " ++ toString r.status) } := by
          simp [process_payment, initiate_stk_push, htok, hr]
        rw [hval]
        exact ⟨rfl, "STK push failed: " ++ toString r.status, rfl⟩

/-- C1: evaluation of `mpesa_callback` at the claimed failing input —
a callback with result code 0 whose correlation id `ws_CO_1` matches
the pending transaction stored in `sampleDb` — shows the handler
acknowledges, leaves the database exactly as it was (the transaction
still `pending`, `completed_at` still NULL), and makes zero
provisioning calls: the success branch of the handler is `pass`. -/
theorem C1_callback_is_noop :
    mpesa_callback sampleDb (.ok { ResultCode := some 0, CheckoutRequestID := some "ws_CO_1" })
      = ({ status := 200, body := .statusSuccess }, sampleDb, [])
    ∧ sampleTx.transaction_id = some "ws_CO_1"
    ∧ (get_transaction_by_id sampleDb 1).map Transaction.status = some "pending" := by
  refine ⟨?_, ?_, ?_⟩ <;> decide

/-- C2: evaluation of `initiate_payment` at the claimed failing input —
a request for package 2 (catalog price 500) carrying the
caller-supplied amount 1 — shows the endpoint returns success, sends
the caller-supplied amount 1 to the gateway, and returns the database
unchanged: no `pending` transaction row is ever created
(`db.create_transaction` is commented out in the endpoint). -/
theorem C2_no_transaction_created :
    initiate_payment sampleDb tokOk stkOk
        { phoneNumber := some ['0', '7', '1', '2', '3', '4', '5', '6', '7', '8'],
          packageId := some 2, amount := some 1, packageName := some "2 Mbps" } "ts"
      = ({ status := 200, body := .paymentOk (some "ws_CO_1") (some "ok") }, sampleDb,
         [{ phoneNumber := ['2', '5', '4', '7', '1', '2', '3', '4', '5', '6', '7', '8'],
            amount := 1 }])
    ∧ (get_package_by_id sampleDb 2).map Package.price = some 500 := by
  refine ⟨?_, ?_⟩ <;> decide

/-- C8 (amended): `initiate_payment` validates only the presence of
the four required fields — a missing field is answered with HTTP 400
`Missing required field`, no gateway call and no database change —
and the `packageId` value is never resolved against the Package
catalog: the response, the gateway calls and the returned database do
not depend on the database at all. -/
theorem C8_presence_validation_only (db db2 : DB) (tokenNet : Except String TokenResp)
    (stkNet : Except String StkResp) (req : InitiateReq) (ts : String) :
    (req.phoneNumber.isSome = true → req.packageId = none →
      initiate_payment db tokenNet stkNet req ts
        = ({ status := 400, body := .errorMsg "Missing required field: packageId" }, db, []))
    ∧ (initiate_payment db tokenNet stkNet req ts).2.1 = db
    ∧ (initiate_payment db tokenNet stkNet req ts).1
        = (initiate_payment db2 tokenNet stkNet req ts).1
    ∧ (initiate_payment db tokenNet stkNet req ts).2.2
        = (initiate_payment db2 tokenNet stkNet req ts).2.2 := by
  obtain ⟨pn, pid, amt, pname, un⟩ := req
  cases pn <;> cases pid <;> cases amt <;> cases pname <;>
    refine ⟨?_, ?_, ?_, ?_⟩ <;>
    simp [initiate_payment] <;>
    split <;> rfl

/-- Concrete instance discharging the hypotheses of
`C8_presence_validation_only`. -/
theorem C8_presence_validation_only_witness :
    initiate_payment sampleDb tokOk stkOk { phoneNumber := some ['0', '7'] } "ts"
      = ({ status := 400, body := .errorMsg "Missing required field: packageId" }, sampleDb, [])
    ∧ (initiate_payment sampleDb tokOk stkOk { phoneNumber := some ['0', '7'] } "ts").2.1
        = sampleDb
    ∧ (initiate_payment sampleDb tokOk stkOk { phoneNumber := some ['0', '7'] } "ts").1
        = (initiate_payment emptyDb tokOk stkOk { phoneNumber := some ['0', '7'] } "ts").1
    ∧ (initiate_payment sampleDb tokOk stkOk { phoneNumber := some ['0', '7'] } "ts").2.2
        = (initiate_payment emptyDb tokOk stkOk { phoneNumber := some ['0', '7'] } "ts").2.2 :=
  have t := C8_presence_validation_only sampleDb emptyDb tokOk stkOk
    { phoneNumber := some ['0', '7'] } "ts"
  ⟨t.1 (by decide) rfl, t.2.1, t.2.2.1, t.2.2.2⟩

/-- C8 counterexample: a request whose `packageId` (999) resolves to
no Package at all is not rejected with `NotFound`: the STK push is
sent and the endpoint answers success. -/
theorem C8_unknown_package_reaches_gateway :
    initiate_payment emptyDb tokOk stkOk
        { phoneNumber := some ['0', '7', '1', '2', '3', '4', '5', '6', '7', '8'],
          packageId := some 999, amount := some 250, packageName := some "ghost" } "ts"
      = ({ status := 200, body := .paymentOk (some "ws_CO_1") (some "ok") }, emptyDb,
         [{ phoneNumber := ['2', '5', '4', '7', '1', '2', '3', '4', '5', '6', '7', '8'],
            amount := 250 }])
    ∧ get_package_by_id emptyDb 999 = none := by
  refine ⟨?_, ?_⟩ <;> decide
